import Mathlib

/-!
Shallow embedding of the file-relay bot (`bot.py`): the SFTP upload pipeline
with configuration validation (`upload_file_with_progress`), the media handler
with its membership gate, scratch-file cleanup (`handle_media`), and the
rate-limited progress callback (`progress_callback`).

External effects (Telegram membership queries, the SFTP transport, the file
download, message edits) are modelled as explicit environment parameters; the
embedding records the observable outcome, the network events issued towards
the destination host, and the final existence of the scratch file.
-/

namespace Bot

/-- Python truthiness test `not val` on an environment setting: true when the
variable is unset (`none`) or set to the empty string. -/
def falsy : Option String → Bool
  | none => true
  | some s => s == ""

/-- The five destination settings read from the environment at module load
(`SFTP_HOST`, `SFTP_USER`, `SFTP_PASS`, `SFTP_PATH`, `PUBLIC_URL_BASE`). -/
structure DestinationConfig where
  SFTP_HOST : Option String
  SFTP_USER : Option String
  SFTP_PASS : Option String
  SFTP_PATH : Option String
  PUBLIC_URL_BASE : Option String
deriving DecidableEq

/-- The dict literal iterated by the validation comprehension, in source
order: pairs of environment-variable name and current value. -/
def settingsList (c : DestinationConfig) : List (String × Option String) :=
  [("FTP_HOST", c.SFTP_HOST), ("FTP_USER", c.SFTP_USER), ("FTP_PASS", c.SFTP_PASS),
   ("FTP_PATH", c.SFTP_PATH), ("PUBLIC_URL_BASE", c.PUBLIC_URL_BASE)]

/-- `missing_vars = [var for var, val in {...}.items() if not val]`. -/
def missing_vars (c : DestinationConfig) : List String :=
  ((settingsList c).filter (fun p => falsy p.2)).map Prod.fst

/-- The `ValueError` message raised on incomplete configuration. -/
def configErrorMsg (missing : List String) : String :=
  "Server hosting misconfigured. Missing: " ++ String.intercalate ", " missing

/-- Python `s.rstrip('/')`: remove every trailing `'/'` character. -/
def rstripSlash (s : String) : String :=
  String.mk ((s.toList.reverse.dropWhile (fun c => c == '/')).reverse)

/-- `remote_filepath = f"..."` built from `SFTP_PATH.rstrip('/')`, one `/`,
and the remote file name. -/
def remote_filepath (c : DestinationConfig) (remote_filename : String) : String :=
  rstripSlash (c.SFTP_PATH.getD "") ++ "/" ++ remote_filename

/-- The public URL returned on upload success:
`f"..."` from `PUBLIC_URL_BASE.rstrip('/')`, one `/`, and the file name. -/
def publicUrl (base remote_filename : String) : String :=
  rstripSlash base ++ "/" ++ remote_filename

/-- Behaviour of the SFTP transport for one upload attempt, as seen by the
`try` block of `upload_file_with_progress`: success, a
`pysftp.AuthenticationException`, a stall past the transport timeout (which
paramiko raises as an ordinary exception), or any other transport exception. -/
inductive TransportBehavior where
  | success
  | authFail
  | timeoutStall (msg : String)
  | otherFailure (msg : String)
deriving DecidableEq

/-- Network events issued towards the destination host. -/
inductive NetEvent where
  | sftpConnect
  | sftpPut
deriving DecidableEq

/-- Exceptions that can escape `upload_file_with_progress`: the `ValueError`
raised on incomplete config, the `ConnectionRefusedError` raised on
authentication failure, and any other exception re-raised as-is. -/
inductive UploadExc where
  | valueError (msg : String)
  | connectionRefusedError (msg : String)
  | genericExc (msg : String)
deriving DecidableEq

/-- `upload_file_with_progress(local_path, remote_filename, callback)`:
validate the five settings first (raising `ValueError` listing the missing
ones, before any connection), then connect and put.  Returns the result (the
public URL or the escaping exception) together with the list of network
events attempted against the destination host. -/
def upload_file_with_progress (c : DestinationConfig) (remote_filename : String)
    (transport : TransportBehavior) : Except UploadExc String × List NetEvent :=
  if missing_vars c ≠ [] then
    (.error (.valueError (configErrorMsg (missing_vars c))), [])
  else
    match transport with
    | .success =>
        (.ok (publicUrl (c.PUBLIC_URL_BASE.getD "") remote_filename),
         [.sftpConnect, .sftpPut])
    | .authFail =>
        (.error (.connectionRefusedError
            "Authentication failed. Check FTP_USER and FTP_PASS."),
         [.sftpConnect])
    | .timeoutStall msg =>
        (.error (.genericExc msg), [.sftpConnect, .sftpPut])
    | .otherFailure msg =>
        (.error (.genericExc msg), [.sftpConnect])

/-- Environment of one relay attempt inside `handle_media`'s `try` block:
whether `download_to_drive` succeeds (creating the scratch file), whether a
failed download leaves a leftover file behind, and the transport behaviour. -/
structure RelayEnv where
  downloadOk : Bool
  leftoverOnFailure : Bool
  transport : TransportBehavior
deriving DecidableEq

/-- The final edit applied to the processing message: the direct-link success
text, the `"🚫 Error: ..."` text for `ValueError`/`ConnectionRefusedError`,
or the generic unexpected-error text for every other exception. -/
inductive FinalMessage where
  | directLink (url : String)
  | errorMsg (detail : String)
  | unexpected
deriving DecidableEq

/-- Observable result of one relay attempt. -/
structure RelayResult where
  outcome : FinalMessage
  scratchExists : Bool
  netEvents : List NetEvent
deriving DecidableEq

/-- `finally: if os.path.exists(temp_file_path): os.remove(temp_file_path)`. -/
def cleanupScratch (existsBefore : Bool) : Bool :=
  if existsBefore then false else existsBefore

/-- The `try`/`except`/`finally` block of `handle_media`: download the file to
scratch, call `upload_file_with_progress`, map its result to the final message
edit, and remove the scratch file in `finally`. -/
def relayFile (c : DestinationConfig) (file_name : String) (env : RelayEnv) :
    RelayResult :=
  if env.downloadOk then
    let r := upload_file_with_progress c file_name env.transport
    let msg := match r.1 with
      | .ok url => FinalMessage.directLink url
      | .error (.valueError m) => FinalMessage.errorMsg m
      | .error (.connectionRefusedError m) => FinalMessage.errorMsg m
      | .error (.genericExc _) => FinalMessage.unexpected
    { outcome := msg, scratchExists := cleanupScratch true, netEvents := r.2 }
  else
    { outcome := FinalMessage.unexpected,
      scratchExists := cleanupScratch env.leftoverOnFailure, netEvents := [] }

/-- Membership statuses returned by `get_chat_member`. -/
inductive MemberStatus where
  | member | administrator | creator | left | kicked | restricted
deriving DecidableEq

/-- Result of one membership query: a status, or a thrown `TelegramError`. -/
inductive QueryResult where
  | ok (status : MemberStatus)
  | telegramError
deriving DecidableEq

/-- `member.status in ["member", "administrator", "creator"]`. -/
def satisfiesGate (s : MemberStatus) : Bool :=
  match s with
  | .member | .administrator | .creator => true
  | _ => false

/-- One iteration of the gate loop: the channel blocks when the status is not
a satisfying one, or when the query throws `TelegramError`. -/
def channelBlocks (q : QueryResult) : Bool :=
  match q with
  | .ok s => !(satisfiesGate s)
  | .telegramError => true

/-- The `not_subscribed` list accumulated by the gate loop, in list order. -/
def not_subscribed (channels : List String) (query : String → QueryResult) :
    List String :=
  channels.filter (fun ch => channelBlocks (query ch))

/-- Outcome of the membership gate. -/
structure MembershipResult where
  subscribed : Bool
  blockingChannels : List String
deriving DecidableEq

/-- The gate portion of `handle_media`: when the required-channel list is
empty the whole block is skipped (no queries); otherwise every channel is
queried once and the blocking ones collected.  Returns the membership result
together with the list of channels actually queried. -/
def gateCheck (channels : List String) (query : String → QueryResult) :
    MembershipResult × List String :=
  if channels.isEmpty then ({ subscribed := true, blockingChannels := [] }, [])
  else
    let blocking := not_subscribed channels query
    ({ subscribed := blocking.isEmpty, blockingChannels := blocking }, channels)

/-- What `handle_media` does after the gate: render the join prompt and stop,
or run the relay. -/
inductive HandleOutcome where
  | joinPrompt (blocking : List String)
  | relayed (r : RelayResult)
deriving DecidableEq

/-- `handle_media`: gate first (join prompt when some channel blocks), then
the relay attempt.  Returns the outcome and the membership queries issued. -/
def handle_media (channels : List String) (query : String → QueryResult)
    (c : DestinationConfig) (file_name : String) (env : RelayEnv) :
    HandleOutcome × List String :=
  let g := gateCheck channels query
  if g.1.subscribed then (.relayed (relayFile c file_name env), g.2)
  else (.joinPrompt g.1.blockingChannels, g.2)

/-- The rate-limit interval used by `progress_callback`:
`if current_time - last_update_time[0] < 2: return`. -/
def MIN_INTERVAL : ℚ := 2

/-- The mutable closure cell `last_update_time = [0]`. -/
structure ProgressState where
  lastUpdateTime : ℚ
deriving DecidableEq

/-- `percentage = int((sent / total) * 100)`: exact value
`⌊100·sent/total⌋` for `total ≠ 0`; `none` models the `ZeroDivisionError`
raised when `total = 0` (no guard exists in the source). -/
def percentage (sent total : Nat) : Option Nat :=
  if total = 0 then none else some (sent * 100 / total)

/-- Number of filled segments: `int(percentage / 10)`. -/
def barFilled (p : Nat) : Nat := p / 10

/-- `bar = '█' * int(percentage / 10) + '─' * (10 - int(percentage / 10))`
(Python's repeat of a negative count and ℕ-subtraction both give the empty
string). -/
def bar (p : Nat) : List Char :=
  List.replicate (barFilled p) '█' ++ List.replicate (10 - barFilled p) '─'

/-- Observable effect of one `progress_callback` invocation: suppressed by
the rate limit, crashed on the division by zero, rendered an update, or
attempted an edit whose failure was swallowed by `except Exception: pass`. -/
inductive EmitResult where
  | suppressed
  | crashed
  | rendered (b : List Char) (pct : Nat)
  | renderFailed
deriving DecidableEq

/-- Whether the invocation actually rendered an update. -/
def EmitResult.isRendered : EmitResult → Bool
  | .rendered _ _ => true
  | _ => false

/-- `progress_callback(sent, total)` at wall-clock time `now`, with
`renderOk` telling whether the `edit_text` call succeeds: return early when
less than `MIN_INTERVAL` has elapsed since `last_update_time[0]`; compute the
percentage (raising on `total = 0`); try the edit and update the timestamp
only when the edit succeeds. -/
def progress_callback (st : ProgressState) (now : ℚ) (sent total : Nat)
    (renderOk : Bool) : ProgressState × EmitResult :=
  if now - st.lastUpdateTime < MIN_INTERVAL then (st, .suppressed)
  else
    match percentage sent total with
    | none => (st, .crashed)
    | some p =>
        if renderOk then ({ lastUpdateTime := now }, .rendered (bar p) p)
        else (st, .renderFailed)

/-- One scheduled invocation of the progress callback. -/
structure ProgressCall where
  now : ℚ
  sent : Nat
  total : Nat
  renderOk : Bool

/-- The wall-clock times of the rendered updates along a sequence of
invocations, threading the closure state through. -/
def renderedTimes : ProgressState → List ProgressCall → List ℚ
  | _, [] => []
  | st, c :: cs =>
      match progress_callback st c.now c.sent c.total c.renderOk with
      | (st', .rendered _ _) => c.now :: renderedTimes st' cs
      | (st', .suppressed) => renderedTimes st' cs
      | (st', .crashed) => renderedTimes st' cs
      | (st', .renderFailed) => renderedTimes st' cs

/-- Two emission times separated by at least the rate-limit interval. -/
def minGap (a b : ℚ) : Prop := a + MIN_INTERVAL ≤ b

/-- A complete configuration used to exercise the pipeline. -/
def cfgFull : DestinationConfig :=
  { SFTP_HOST := some "sftp.example.com", SFTP_USER := some "u",
    SFTP_PASS := some "p", SFTP_PATH := some "/files",
    PUBLIC_URL_BASE := some "https://dl.example.com" }

/-- An incomplete configuration: user unset, password set to the empty
string. -/
def cfgIncomplete : DestinationConfig :=
  { SFTP_HOST := some "sftp.example.com", SFTP_USER := none,
    SFTP_PASS := some "", SFTP_PATH := some "/files",
    PUBLIC_URL_BASE := some "https://dl.example.com" }

/-- A complete configuration whose public URL base carries trailing
slashes. -/
def cfgSlashes : DestinationConfig :=
  { SFTP_HOST := some "sftp.example.com", SFTP_USER := some "u",
    SFTP_PASS := some "p", SFTP_PATH := some "/files",
    PUBLIC_URL_BASE := some "https://dl.example.com///" }

/-- A relay environment where everything succeeds. -/
def envOk : RelayEnv :=
  { downloadOk := true, leftoverOnFailure := false, transport := .success }

/-- A relay environment whose transport stalls past the timeout. -/
def envStalled : RelayEnv :=
  { downloadOk := true, leftoverOnFailure := false,
    transport := .timeoutStall "Timeout waiting for data from the server" }

/-! ## Helper lemmas -/

/-- Membership in `missing_vars` names exactly the settings whose value is
absent (unset or empty). -/
theorem mem_missing_vars (c : DestinationConfig) (name : String) :
    name ∈ missing_vars c ↔
      ((name = "FTP_HOST" ∧ falsy c.SFTP_HOST = true) ∨
       (name = "FTP_USER" ∧ falsy c.SFTP_USER = true) ∨
       (name = "FTP_PASS" ∧ falsy c.SFTP_PASS = true) ∨
       (name = "FTP_PATH" ∧ falsy c.SFTP_PATH = true) ∨
       (name = "PUBLIC_URL_BASE" ∧ falsy c.PUBLIC_URL_BASE = true)) := by
  cases h1 : falsy c.SFTP_HOST <;> cases h2 : falsy c.SFTP_USER <;>
    cases h3 : falsy c.SFTP_PASS <;> cases h4 : falsy c.SFTP_PATH <;>
    cases h5 : falsy c.PUBLIC_URL_BASE <;>
    simp [missing_vars, settingsList, h1, h2, h3, h4, h5]

/-- The cleanup in `finally` always leaves the scratch file absent. -/
theorem cleanupScratch_eq_false (b : Bool) : cleanupScratch b = false := by
  cases b <;> rfl

/-- With an incomplete configuration and a successful download, the relay
result is the configuration-error message with no network events, whatever
the transport would have done. -/
theorem relayFile_incomplete (c : DestinationConfig) (file_name : String)
    (env : RelayEnv) (hmiss : missing_vars c ≠ [])
    (hdl : env.downloadOk = true) :
    relayFile c file_name env =
      { outcome := .errorMsg (configErrorMsg (missing_vars c)),
        scratchExists := false, netEvents := [] } := by
  simp [relayFile, hdl, upload_file_with_progress, hmiss, cleanupScratch]

/-! ## Claims -/

/-- C1: for every destination configuration in which any of the five required
settings is absent, the relay fails with the configuration error naming
exactly the absent settings, before any network connection is attempted; a
second call with the same incomplete configuration (any environment with a
successful download) yields the identical result, again with no network
attempt. -/
theorem C1_config_validation (c : DestinationConfig) (file_name : String)
    (env env' : RelayEnv) (hmiss : missing_vars c ≠ [])
    (hdl : env.downloadOk = true) (hdl' : env'.downloadOk = true) :
    (relayFile c file_name env).netEvents = [] ∧
    (relayFile c file_name env).outcome
      = FinalMessage.errorMsg (configErrorMsg (missing_vars c)) ∧
    relayFile c file_name env = relayFile c file_name env' ∧
    (∀ name, name ∈ missing_vars c ↔
      ((name = "FTP_HOST" ∧ falsy c.SFTP_HOST = true) ∨
       (name = "FTP_USER" ∧ falsy c.SFTP_USER = true) ∨
       (name = "FTP_PASS" ∧ falsy c.SFTP_PASS = true) ∨
       (name = "FTP_PATH" ∧ falsy c.SFTP_PATH = true) ∨
       (name = "PUBLIC_URL_BASE" ∧ falsy c.PUBLIC_URL_BASE = true))) := by
  refine ⟨?_, ?_, ?_, fun name => mem_missing_vars c name⟩
  · rw [relayFile_incomplete c file_name env hmiss hdl]
  · rw [relayFile_incomplete c file_name env hmiss hdl]
  · rw [relayFile_incomplete c file_name env hmiss hdl,
        relayFile_incomplete c file_name env' hmiss hdl']

/-- Witness for C1 at a concrete incomplete configuration. -/
theorem C1_config_validation_witness :
    missing_vars cfgIncomplete ≠ [] ∧ envOk.downloadOk = true ∧
    envStalled.downloadOk = true ∧
    ((relayFile cfgIncomplete "clip.mp4" envOk).netEvents = [] ∧
     (relayFile cfgIncomplete "clip.mp4" envOk).outcome
       = FinalMessage.errorMsg (configErrorMsg (missing_vars cfgIncomplete)) ∧
     relayFile cfgIncomplete "clip.mp4" envOk
       = relayFile cfgIncomplete "clip.mp4" envStalled ∧
     (∀ name, name ∈ missing_vars cfgIncomplete ↔
       ((name = "FTP_HOST" ∧ falsy cfgIncomplete.SFTP_HOST = true) ∨
        (name = "FTP_USER" ∧ falsy cfgIncomplete.SFTP_USER = true) ∨
        (name = "FTP_PASS" ∧ falsy cfgIncomplete.SFTP_PASS = true) ∨
        (name = "FTP_PATH" ∧ falsy cfgIncomplete.SFTP_PATH = true) ∨
        (name = "PUBLIC_URL_BASE" ∧ falsy cfgIncomplete.PUBLIC_URL_BASE = true)))) :=
  ⟨by decide, rfl, rfl,
   C1_config_validation cfgIncomplete "clip.mp4" envOk envStalled
     (by decide) rfl rfl⟩

/-- C2: on every terminal outcome — success, configuration error, connection
error, unexpected error, or an exception raised mid-upload — the scratch file
no longer exists after the relay returns. -/
theorem C2_cleanup_invariant (c : DestinationConfig) (file_name : String)
    (env : RelayEnv) : (relayFile c file_name env).scratchExists = false := by
  cases h : env.downloadOk <;>
    simp [relayFile, h, cleanupScratch_eq_false]

/-- C3: a channel whose membership query throws appears in the blocking
channels of the result (fail closed), the result is unsubscribed, and the
query failure is not propagated as a distinct error: the handler renders the
join prompt. -/
theorem C3_fail_closed (channels : List String) (query : String → QueryResult)
    (ch : String) (hmem : ch ∈ channels) (hq : query ch = .telegramError) :
    ch ∈ (gateCheck channels query).1.blockingChannels ∧
    (gateCheck channels query).1.subscribed = false ∧
    (∀ (c : DestinationConfig) (f : String) (env : RelayEnv),
      (handle_media channels query c f env).1
        = .joinPrompt (gateCheck channels query).1.blockingChannels) := by
  cases channels with
  | nil => simp at hmem
  | cons a l =>
    have hblock : ch ∈ not_subscribed (a :: l) query := by
      simp [not_subscribed, List.mem_filter, hmem, channelBlocks, hq]
    have hne : (not_subscribed (a :: l) query).isEmpty = false := by
      cases hcase : not_subscribed (a :: l) query with
      | nil => rw [hcase] at hblock; simp at hblock
      | cons b m => simp
    refine ⟨?_, ?_, ?_⟩
    · simpa [gateCheck] using hblock
    · simp [gateCheck, hne]
    · intro c f env
      simp [handle_media, gateCheck, hne]

/-- Witness for C3: a single required channel whose query throws. -/
theorem C3_fail_closed_witness :
    "@x" ∈ ["@x"] ∧
    (fun _ : String => QueryResult.telegramError) "@x" = .telegramError ∧
    ("@x" ∈ (gateCheck ["@x"] (fun _ => .telegramError)).1.blockingChannels ∧
     (gateCheck ["@x"] (fun _ => .telegramError)).1.subscribed = false ∧
     (∀ (c : DestinationConfig) (f : String) (env : RelayEnv),
       (handle_media ["@x"] (fun _ => .telegramError) c f env).1
         = .joinPrompt
             (gateCheck ["@x"] (fun _ => .telegramError)).1.blockingChannels)) :=
  ⟨by simp, rfl,
   C3_fail_closed ["@x"] (fun _ => .telegramError) "@x" (by simp) rfl⟩

/-- C7: with an empty required-channel list the gate returns subscribed with
no blocking channels, issues no membership query, and the handler proceeds
directly to the relay (no join prompt). -/
theorem C7_empty_channel_list (query : String → QueryResult)
    (c : DestinationConfig) (file_name : String) (env : RelayEnv) :
    gateCheck [] query = ({ subscribed := true, blockingChannels := [] }, []) ∧
    handle_media [] query c file_name env
      = (.relayed (relayFile c file_name env), []) := by
  exact ⟨rfl, rfl⟩

/-- Rendered updates along any call sequence are spaced by at least
`MIN_INTERVAL`, chained from the timestamp stored in the closure state: the
rate gate compares against the last successful render and a render stores its
own time. -/
theorem renderedTimes_chain (calls : List ProgressCall) (st : ProgressState) :
    List.Chain minGap st.lastUpdateTime (renderedTimes st calls) := by
  induction calls generalizing st with
  | nil => exact List.Chain.nil
  | cons c cs ih =>
    by_cases hlt : c.now - st.lastUpdateTime < MIN_INTERVAL
    · have hstep : renderedTimes st (c :: cs) = renderedTimes st cs := by
        simp [renderedTimes, progress_callback, hlt]
      rw [hstep]; exact ih st
    · cases hp : percentage c.sent c.total with
      | none =>
        have hstep : renderedTimes st (c :: cs) = renderedTimes st cs := by
          simp [renderedTimes, progress_callback, hlt, hp]
        rw [hstep]; exact ih st
      | some p =>
        cases hr : c.renderOk with
        | false =>
          have hstep : renderedTimes st (c :: cs) = renderedTimes st cs := by
            simp [renderedTimes, progress_callback, hlt, hp, hr]
          rw [hstep]; exact ih st
        | true =>
          have hstep : renderedTimes st (c :: cs)
              = c.now :: renderedTimes { lastUpdateTime := c.now } cs := by
            simp [renderedTimes, progress_callback, hlt, hp, hr]
          rw [hstep]
          refine List.Chain.cons ?_ (ih { lastUpdateTime := c.now })
          unfold minGap
          push_neg at hlt
          linarith

/-- C4 (code defect at `report(0, 0)`): the percentage computation
`int((sent / total) * 100)` has no guard on `total = 0`, so `report(0, 0)`
raises `ZeroDivisionError` (the invocation crashes and renders nothing)
instead of yielding 0%; for `total ≠ 0` the exact value `⌊100·sent/total⌋` is
computed, e.g. 50 for `report(5, 10)`. -/
theorem C4_zero_total_divides :
    percentage 0 0 = none ∧
    progress_callback { lastUpdateTime := 0 } 10 0 0 true
      = ({ lastUpdateTime := 0 }, .crashed) ∧
    percentage 5 10 = some 50 := by
  refine ⟨rfl, ?_, rfl⟩
  have hnot : ¬ ((10:ℚ) < MIN_INTERVAL) := by norm_num [MIN_INTERVAL]
  simp [progress_callback, hnot, percentage]

/-- C6: the first invocation (closure timestamp 0, any wall-clock time at
least `MIN_INTERVAL` past the epoch, a nonzero total, a successful edit)
renders an update; every invocation less than `MIN_INTERVAL` after the last
rendered update is suppressed with the state unchanged; and along any call
sequence the rendered updates are spaced at least `MIN_INTERVAL` apart (at
most one rendered update per window). -/
theorem C6_rate_limiting (sent total : Nat) (now : ℚ)
    (calls : List ProgressCall)
    (hnow : MIN_INTERVAL ≤ now) (htot : total ≠ 0) :
    ((progress_callback { lastUpdateTime := 0 } now sent total true).2).isRendered
      = true ∧
    (∀ (st : ProgressState) (t : ℚ) (s n : Nat) (r : Bool),
        t - st.lastUpdateTime < MIN_INTERVAL →
        progress_callback st t s n r = (st, .suppressed)) ∧
    List.Chain minGap 0 (renderedTimes { lastUpdateTime := 0 } calls) := by
  refine ⟨?_, ?_, ?_⟩
  · have hnot : ¬ (now < MIN_INTERVAL) := not_lt.mpr hnow
    simp [progress_callback, hnot, percentage, htot, EmitResult.isRendered]
  · intro st t s n r h
    simp [progress_callback, h]
  · exact renderedTimes_chain calls { lastUpdateTime := 0 }

/-- Witness for C6 at a concrete three-call trace. -/
theorem C6_rate_limiting_witness :
    MIN_INTERVAL ≤ (10:ℚ) ∧ (2:Nat) ≠ 0 ∧
    (((progress_callback { lastUpdateTime := 0 } 10 1 2 true).2).isRendered
        = true ∧
     (∀ (st : ProgressState) (t : ℚ) (s n : Nat) (r : Bool),
        t - st.lastUpdateTime < MIN_INTERVAL →
        progress_callback st t s n r = (st, .suppressed)) ∧
     List.Chain minGap 0 (renderedTimes { lastUpdateTime := 0 }
       [⟨10, 1, 2, true⟩, ⟨11, 1, 2, true⟩, ⟨13, 2, 2, true⟩])) :=
  ⟨by norm_num [MIN_INTERVAL], by decide,
   C6_rate_limiting 1 2 10 [⟨10, 1, 2, true⟩, ⟨11, 1, 2, true⟩, ⟨13, 2, 2, true⟩]
     (by norm_num [MIN_INTERVAL]) (by decide)⟩

/-- C9: every emitted update (nonzero total, sent bytes not exceeding the
total) renders a bar of exactly 10 segments of which exactly
`⌊percentage/10⌋` are filled; at half the total the bar has exactly 5 filled
segments. -/
theorem C9_bar_rendering (sent total : Nat) (ht : 0 < total)
    (hle : sent ≤ total) :
    percentage sent total = some (sent * 100 / total) ∧
    (bar (sent * 100 / total)).length = 10 ∧
    (bar (sent * 100 / total)).count '█' = barFilled (sent * 100 / total) ∧
    (2 * sent = total → barFilled (sent * 100 / total) = 5) := by
  have hp100 : sent * 100 / total ≤ 100 := by
    calc sent * 100 / total ≤ total * 100 / total :=
          Nat.div_le_div_right (Nat.mul_le_mul_right 100 hle)
      _ = 100 := Nat.mul_div_cancel_left 100 ht
  refine ⟨by simp [percentage, Nat.pos_iff_ne_zero.mp ht], ?_, ?_, ?_⟩
  · have hf : sent * 100 / total / 10 ≤ 10 := by omega
    simp only [bar, barFilled, List.length_append, List.length_replicate]
    omega
  · simp [bar, barFilled, List.count_append, List.count_replicate]
  · intro h2
    have hs : 0 < 2 * sent := by omega
    rw [← h2, show sent * 100 = (2 * sent) * 50 by ring,
        Nat.mul_div_cancel_left 50 hs]
    rfl

/-- Witness for C9 at `report(5, 10)`. -/
theorem C9_bar_rendering_witness :
    0 < 10 ∧ 5 ≤ 10 ∧
    (percentage 5 10 = some (5 * 100 / 10) ∧
     (bar (5 * 100 / 10)).length = 10 ∧
     (bar (5 * 100 / 10)).count '█' = barFilled (5 * 100 / 10) ∧
     (2 * 5 = 10 → barFilled (5 * 100 / 10) = 5)) :=
  ⟨by decide, by decide, C9_bar_rendering 5 10 (by decide) (by decide)⟩

/-- C10: the rate-limit timestamp advances only on a successful render — a
failed status edit leaves the closure state unchanged, so every later call
(at any wall-clock time not before the failed attempt) again passes the rate
gate, however little time has elapsed since the failure. -/
theorem C10_timestamp_on_success (st : ProgressState) (now : ℚ)
    (sent total : Nat) (hgate : MIN_INTERVAL ≤ now - st.lastUpdateTime) :
    (progress_callback st now sent total false).1 = st ∧
    (∀ (t : ℚ) (s n : Nat) (r : Bool), now ≤ t →
      (progress_callback st t s n r).2 ≠ .suppressed) := by
  have hnot : ¬ (now - st.lastUpdateTime < MIN_INTERVAL) := not_lt.mpr hgate
  constructor
  · cases hp : percentage sent total <;> simp [progress_callback, hnot, hp]
  · intro t s n r hle
    have hnot' : ¬ (t - st.lastUpdateTime < MIN_INTERVAL) := by
      push_neg
      linarith [hgate]
    cases hp : percentage s n with
    | none => simp [progress_callback, hnot', hp]
    | some p => cases r <;> simp [progress_callback, hnot', hp]

/-- Witness for C10: a failed edit at time 5 with initial state. -/
theorem C10_timestamp_on_success_witness :
    MIN_INTERVAL ≤ (5:ℚ) - ({ lastUpdateTime := 0 } : ProgressState).lastUpdateTime ∧
    ((progress_callback { lastUpdateTime := 0 } 5 3 10 false).1
       = ({ lastUpdateTime := 0 } : ProgressState) ∧
     (∀ (t : ℚ) (s n : Nat) (r : Bool), (5:ℚ) ≤ t →
       (progress_callback { lastUpdateTime := 0 } t s n r).2 ≠ .suppressed)) :=
  ⟨by norm_num [MIN_INTERVAL],
   C10_timestamp_on_success { lastUpdateTime := 0 } 5 3 10
     (by norm_num [MIN_INTERVAL])⟩

/-- The head of `dropWhile p` never satisfies `p`. -/
theorem head_dropWhile_false {α : Type} (p : α → Bool) (l : List α) (a : α)
    (h : (l.dropWhile p).head? = some a) : p a = false := by
  induction l with
  | nil => simp at h
  | cons x xs ih =>
    cases hx : p x with
    | true =>
      rw [List.dropWhile_cons, hx] at h
      simp at h
      exact ih h
    | false =>
      rw [List.dropWhile_cons, hx] at h
      simp at h
      exact h ▸ hx

/-- The trimmed base never ends in a slash. -/
theorem rstripSlash_no_trailing (s : String) :
    (rstripSlash s).toList.getLast? ≠ some '/' := by
  intro h
  have h' : (s.toList.reverse.dropWhile (fun c => c == '/')).head? = some '/' := by
    have : (rstripSlash s).toList
        = (s.toList.reverse.dropWhile (fun c => c == '/')).reverse := rfl
    rw [this, List.getLast?_reverse] at h
    exact h
  have hfalse := head_dropWhile_false (fun c => c == '/') _ _ h'
  simp at hfalse

/-- The original base is the trimmed base followed by the trimmed-off
trailing slashes. -/
theorem rstripSlash_decomp (s : String) :
    s.toList = (rstripSlash s).toList
      ++ List.replicate
          (s.toList.length - (rstripSlash s).toList.length) '/' := by
  have htake : s.toList.reverse.takeWhile (fun c => c == '/')
      = List.replicate
          (s.toList.reverse.takeWhile (fun c => c == '/')).length '/' := by
    rw [List.eq_replicate_length]
    intro b hb
    have := List.mem_takeWhile_imp hb
    simpa using this
  have hsplit : s.toList.reverse.takeWhile (fun c => c == '/')
      ++ s.toList.reverse.dropWhile (fun c => c == '/') = s.toList.reverse :=
    List.takeWhile_append_dropWhile _ _
  have hlen : s.toList.length - (rstripSlash s).toList.length
      = (s.toList.reverse.takeWhile (fun c => c == '/')).length := by
    have h1 : (s.toList.reverse.takeWhile (fun c => c == '/')).length
        + (s.toList.reverse.dropWhile (fun c => c == '/')).length
        = s.toList.length := by
      rw [← List.length_append, hsplit, List.length_reverse]
    have h2 : (rstripSlash s).toList.length
        = (s.toList.reverse.dropWhile (fun c => c == '/')).length := by
      show ((s.toList.reverse.dropWhile (fun c => c == '/')).reverse).length = _
      rw [List.length_reverse]
    omega
  have hr : (rstripSlash s).toList
      = (List.dropWhile (fun c => c == '/') s.toList.reverse).reverse := rfl
  rw [hlen, hr]
  conv_lhs => rw [← List.reverse_reverse s.toList, ← hsplit]
  rw [List.reverse_append]
  conv_lhs => rw [htake, List.reverse_replicate]

/-- C8: with a complete configuration, the public URL returned on upload
success is the configured base with every trailing slash trimmed, joined to
the remote file name by exactly one slash: the trimmed base never ends in a
slash and differs from the configured base only by the trailing slashes
removed. -/
theorem C8_public_url (c : DestinationConfig) (remote_filename : String)
    (hmiss : missing_vars c = []) :
    (upload_file_with_progress c remote_filename .success).1
      = .ok (rstripSlash (c.PUBLIC_URL_BASE.getD "") ++ "/" ++ remote_filename) ∧
    (rstripSlash (c.PUBLIC_URL_BASE.getD "")).toList.getLast? ≠ some '/' ∧
    (c.PUBLIC_URL_BASE.getD "").toList
      = (rstripSlash (c.PUBLIC_URL_BASE.getD "")).toList
        ++ List.replicate
            ((c.PUBLIC_URL_BASE.getD "").toList.length
              - (rstripSlash (c.PUBLIC_URL_BASE.getD "")).toList.length) '/' := by
  refine ⟨?_, rstripSlash_no_trailing _, rstripSlash_decomp _⟩
  simp [upload_file_with_progress, hmiss, publicUrl]

/-- Witness for C8 at a base carrying three trailing slashes. -/
theorem C8_public_url_witness :
    missing_vars cfgSlashes = [] ∧
    ((upload_file_with_progress cfgSlashes "clip.mp4" .success).1
       = .ok (rstripSlash (cfgSlashes.PUBLIC_URL_BASE.getD "")
              ++ "/" ++ "clip.mp4") ∧
     (rstripSlash (cfgSlashes.PUBLIC_URL_BASE.getD "")).toList.getLast?
       ≠ some '/' ∧
     (cfgSlashes.PUBLIC_URL_BASE.getD "").toList
       = (rstripSlash (cfgSlashes.PUBLIC_URL_BASE.getD "")).toList
         ++ List.replicate
             ((cfgSlashes.PUBLIC_URL_BASE.getD "").toList.length
               - (rstripSlash (cfgSlashes.PUBLIC_URL_BASE.getD "")).toList.length)
             '/') :=
  ⟨by decide, C8_public_url cfgSlashes "clip.mp4" (by decide)⟩

/-- C5 counterexample: with a complete configuration, an upload stalled past
the transport timeout produces exactly the generic unexpected-error outcome —
identical to any other unclassified transport failure — rather than a
distinct timeout-kind connection error with a firewall diagnostic. -/
theorem C5_counterexample :
    (relayFile cfgFull "clip.mp4" envStalled).outcome = FinalMessage.unexpected ∧
    (relayFile cfgFull "clip.mp4"
        { downloadOk := true, leftoverOnFailure := false,
          transport := .otherFailure "disk full" }).outcome
      = FinalMessage.unexpected := by
  constructor <;> rfl

/-- C5 (amended): a stall past the transport timeout raises an exception that
`upload_file_with_progress` re-raises unchanged, so the handler reports the
generic unexpected-error message, indistinguishable from any other
unclassified transport failure; only an authentication failure is mapped to
the distinct credentials message; the scratch file is removed in both
cases. -/
theorem C5_timeout_is_generic (c : DestinationConfig) (f msg : String)
    (leftover : Bool) (hmiss : missing_vars c = []) :
    (relayFile c f
        { downloadOk := true, leftoverOnFailure := leftover,
          transport := .timeoutStall msg }).outcome = FinalMessage.unexpected ∧
    (relayFile c f
        { downloadOk := true, leftoverOnFailure := leftover,
          transport := .otherFailure msg }).outcome = FinalMessage.unexpected ∧
    (relayFile c f
        { downloadOk := true, leftoverOnFailure := leftover,
          transport := .authFail }).outcome
      = FinalMessage.errorMsg
          "Authentication failed. Check FTP_USER and FTP_PASS." ∧
    (relayFile c f
        { downloadOk := true, leftoverOnFailure := leftover,
          transport := .timeoutStall msg }).scratchExists = false := by
  refine ⟨?_, ?_, ?_, ?_⟩ <;>
    simp [relayFile, upload_file_with_progress, hmiss, cleanupScratch]

/-- Witness for the amended C5 at a concrete complete configuration. -/
theorem C5_timeout_is_generic_witness :
    missing_vars cfgFull = [] ∧
    ((relayFile cfgFull "clip.mp4"
        { downloadOk := true, leftoverOnFailure := false,
          transport := .timeoutStall "Timeout waiting for data" }).outcome
       = FinalMessage.unexpected ∧
     (relayFile cfgFull "clip.mp4"
        { downloadOk := true, leftoverOnFailure := false,
          transport := .otherFailure "Timeout waiting for data" }).outcome
       = FinalMessage.unexpected ∧
     (relayFile cfgFull "clip.mp4"
        { downloadOk := true, leftoverOnFailure := false,
          transport := .authFail }).outcome
       = FinalMessage.errorMsg
           "Authentication failed. Check FTP_USER and FTP_PASS." ∧
     (relayFile cfgFull "clip.mp4"
        { downloadOk := true, leftoverOnFailure := false,
          transport := .timeoutStall "Timeout waiting for data" }).scratchExists
       = false) :=
  ⟨by decide,
   C5_timeout_is_generic cfgFull "clip.mp4" "Timeout waiting for data" false
     (by decide)⟩

end Bot
